import Mathlib

/-! # sealed-secrets-rotator: a shallow embedding of `cmd/sealed-secrets-rotator.go`

The program is a straight-line orchestration around external commands
(`kubectl`, `kubeseal`, `sh`) and temporary files.  The embedding keeps the
control flow of every function of the source and makes the outside world
explicit:

* an external command is a `Cmd` (program, arguments, standard input); what it
  did is a `CmdResult` supplied by the environment (`Env`, `RotateEnv`), over
  which every general statement quantifies;
* a Go `error` is `Option String` (`none` is `nil`, `some msg` carries
  `err.Error()`);
* the filesystem is an association list from paths to contents, the contents
  being bytes (`FS`); writing and removing a file can fail, as decided by the
  environment;
* what `main` itself prints is a list of chunks, one per `fmt.Print*` call
  (what child processes write to the inherited standard output is not part of
  it);
* `os.Exit(1)` ends `main` with exit code `1`, falling off the end of `main`
  ends it with exit code `0`;
* `defer os.Remove(..)` is run, last registered first, on every return that
  follows its registration.

`main` additionally records a trace of the calls it makes (`Call`), so that
statements about which functions were invoked, in which order and with which
arguments can be written down.

Not modelled: `flag` parsing (`main` takes the parsed `Config`), the results
of `Close()` on the temp files (the source discards them), and a shell that
cannot be started at all.
-/

namespace SealedSecretsRotator

/-! ## Data model -/

/-- The `metadata` object of a sealed secret (the anonymous struct of the source). -/
structure ObjectMeta where
  Name : String
  Namespace : String
  deriving DecidableEq, Repr

/-- Go `type SealedSecret struct`. -/
structure SealedSecret where
  Metadata : ObjectMeta
  deriving DecidableEq, Repr

/-- Go `type Config struct`. -/
structure Config where
  ControllerName : String
  ControllerNamespace : String
  DryRun : Bool
  Verbose : Bool
  deriving DecidableEq, Repr

/-- A Go `error`: `none` is `nil`, `some msg` is an error whose `Error()` is `msg`. -/
abbrev GoError := Option String

/-- An `exec.Command` value together with the standard input wired to it. -/
structure Cmd where
  name : String
  args : List String
  stdin : String
  deriving DecidableEq, Repr

/-- What `cmd.Run()` observed: the bytes captured from standard output and the
returned error (non-nil when the process could not run or exited non-zero). -/
structure CmdResult where
  stdout : String
  err : GoError
  deriving DecidableEq, Repr

/-- The bytes of a Go string (its UTF-8 encoding). -/
def bytesOf (s : String) : List UInt8 :=
  s.data.flatMap String.utf8EncodeChar

/-- The filesystem: the files present, each with its content in bytes. -/
abbrev FS := List (String × List UInt8)

/-- The set of paths present in a filesystem. -/
def FS.paths (fs : FS) : List String := fs.map Prod.fst

/-- Content of the file at `path`, if the file exists. -/
def FS.read (fs : FS) (path : String) : Option (List UInt8) :=
  (fs.find? (fun e => e.1 = path)).map Prod.snd

/-- Effect of `os.Remove(path)`.  `result` is the error the call returned:
on `nil` the path is no longer present, on an error nothing changed. -/
def FS.remove (fs : FS) (path : String) (result : GoError) : FS :=
  match result with
  | none => fs.filter (fun e => e.1 ≠ path)
  | some _ => fs

/-- Effect of `f.WriteString(s)` on a file that was just created empty.
`short = none` is a complete write; `short = some n` is a write that failed
after `n` bytes (Go returns `n` and a non-nil error). -/
def FS.writeString (fs : FS) (path s : String) (short : Option Nat) : FS :=
  let written : List UInt8 :=
    match short with
    | none => bytesOf s
    | some n => (bytesOf s).take n
  fs.map (fun e => if e.1 = path then (path, written) else e)

/-! ## UI helpers

Each helper returns the chunks it writes to standard output. -/

/-- Go `printSection`. -/
def printSection (title : String) : List String :=
  ["\n----------------------------------------------\n",
   "📌 " ++ title ++ "\n",
   "----------------------------------------------\n"]

/-- Go `printSuccess`. -/
def printSuccess (message : String) : List String :=
  ["✅ " ++ message ++ "\n"]

/-- Go `printError`. -/
def printError (message : String) : List String :=
  ["❌ " ++ message ++ "\n"]

/-- Go `printInfo`. -/
def printInfo (message : String) : List String :=
  ["ℹ️  " ++ message ++ "\n"]

/-! ## The three fetchers -/

/-- Go `getSealedSecrets`.  `run` is the outcome of executing the command,
`unmarshal` is `json.Unmarshal` into `struct { Items []SealedSecret }`. -/
def getSealedSecrets (run : Cmd → CmdResult)
    (unmarshal : String → Except String (List SealedSecret)) :
    List SealedSecret × GoError :=
  let cmd : Cmd := ⟨"kubectl", ["get", "SealedSecret", "-A", "-o", "json"], ""⟩
  let out := run cmd
  match out.err with
  | some err => ([], some err)
  | none =>
    match unmarshal out.stdout with
    | .error err => ([], some err)
    | .ok items => (items, none)

/-- The command built by `fetchPublicKey`. -/
def fetchPublicKeyCmd (controllerName controllerNamespace : String) : Cmd :=
  ⟨"kubeseal", ["--fetch-cert",
    "--controller-name", controllerName,
    "--controller-namespace", controllerNamespace], ""⟩

/-- Go `fetchPublicKey`. -/
def fetchPublicKey (run : Cmd → CmdResult)
    (controllerName controllerNamespace : String) : String × GoError :=
  let out := run (fetchPublicKeyCmd controllerName controllerNamespace)
  match out.err with
  | some err => ("", some err)
  | none => (out.stdout, none)

/-- The command built by `getPrivateKeys`. -/
def getPrivateKeysCmd (namespace_ : String) : Cmd :=
  ⟨"kubectl", ["get", "secret", "-n", namespace_,
    "-l", "sealedsecrets.bitnami.com/sealed-secrets-key", "-o", "yaml"], ""⟩

/-- Go `getPrivateKeys`. -/
def getPrivateKeys (run : Cmd → CmdResult) (namespace_ : String) : String × GoError :=
  let out := run (getPrivateKeysCmd namespace_)
  match out.err with
  | some err => ("", some err)
  | none => (out.stdout, none)

/-! ## Temporary files -/

/-- The part of `os.CreateTemp` that splits a pattern at its last `*` into the
text before and the text after the random string (no `*`: everything is
before). -/
def splitPattern (pattern : String) : String × String :=
  let rev := pattern.data.reverse
  match rev.dropWhile (fun c => c ≠ '*') with
  | [] => (pattern, "")
  | _ :: before => (String.mk before.reverse, String.mk (rev.takeWhile (fun c => c ≠ '*')).reverse)

/-- The part of `os.CreateTemp` that puts a file name under a directory: a
separator is added unless the directory already ends with one. -/
def joinPath (dir name : String) : String :=
  if dir.data.getLast? = some '/' then dir ++ name else dir ++ "/" ++ name

/-- Go `os.CreateTemp("", pattern)`.  `tempDir` is `os.TempDir()`; `rand` is
what the library call met: an error, or the random string of the name it
finally settled on.  The file is opened with `O_EXCL`, so a name that is
already present is an error; otherwise an empty file appears. -/
def createTemp (tempDir : String) (rand : Except String String) (pattern : String)
    (fs : FS) : Except String (String × FS) :=
  match rand with
  | .error err => .error err
  | .ok r =>
    let name := joinPath tempDir ((splitPattern pattern).1 ++ r ++ (splitPattern pattern).2)
    if name ∈ fs.paths then .error ("open " ++ name ++ ": file exists")
    else .ok (name, (name, []) :: fs)

/-! ## rotateSecret -/

/-- What happened when `sh -c script` ran: the exit status of each command of
the pipeline, in order, and the filesystem the run left behind. -/
structure ShResult where
  stages : List Nat
  fs : FS

/-- Exit status of `sh -c "c1 | c2 | ..."`: without `pipefail` it is the status
of the last command of the pipeline. -/
def shExit (stages : List Nat) : Nat :=
  stages.getLast?.getD 0

/-- The error `cmd.Run()` returns for a process that exited with `status`. -/
def runError (status : Nat) : GoError :=
  if status = 0 then none else some ("exit status " ++ toString status)

/-- Everything one call of `rotateSecret` meets in the outside world. -/
structure RotateEnv where
  /-- outcome of the per-item `kubectl get` -/
  getRun : Cmd → CmdResult
  /-- `os.TempDir()` -/
  tempDir : String
  /-- outcome of `os.CreateTemp("", "public-key-*.pem")` -/
  publicKeyRand : Except String String
  /-- outcome of `publicKeyFile.WriteString(publicKey)` -/
  publicKeyWrite : Option Nat
  /-- outcome of `os.CreateTemp("", "private-keys-*.yaml")` -/
  privateKeysRand : Except String String
  /-- outcome of `privateKeysFile.WriteString(privateKeys)` -/
  privateKeysWrite : Option Nat
  /-- outcome of running the shell pipeline against a filesystem -/
  shRun : Cmd → FS → ShResult
  /-- error returned by the deferred `os.Remove(privateKeysFile.Name())` -/
  privateKeysRemove : GoError
  /-- error returned by the deferred `os.Remove(publicKeyFile.Name())` -/
  publicKeyRemove : GoError

/-- The shell line `rotateSecret` formats with `fmt.Sprintf`. -/
def sealScript (privateKeysFile publicKeyFile controllerName controllerNamespace : String) :
    String :=
  "kubeseal --recovery-unseal --recovery-private-key " ++ privateKeysFile ++ " | " ++
  "kubeseal --format=yaml --cert=" ++ publicKeyFile ++
  " --controller-name=" ++ controllerName ++
  " --controller-namespace=" ++ controllerNamespace ++ " | " ++
  "kubectl apply -f -"

/-- The per-item `kubectl get` command of `rotateSecret`. -/
def getCmd (name namespace_ : String) : Cmd :=
  ⟨"kubectl", ["get", "SealedSecret", name, "-n", namespace_, "-o", "json"], ""⟩

/-- Result of one `rotateSecret` call: the returned error and the filesystem
after the return, plus a record of what the call did (the temp files it
created and, if it got that far, the pipeline command it ran together with the
filesystem that command saw). -/
structure RotateResult where
  err : GoError
  fs : FS
  publicKeyFile : Option String
  privateKeysFile : Option String
  sealRun : Option (Cmd × FS)

/-- Go `rotateSecret`.  The two deferred removals run, last registered first,
on every return after their registration; the source discards their results. -/
def rotateSecret (w : RotateEnv) (fs : FS)
    (name namespace_ publicKey privateKeys controllerName controllerNamespace : String) :
    RotateResult :=
  let getOut := w.getRun (getCmd name namespace_)
  match getOut.err with
  | some err => ⟨some err, fs, none, none, none⟩
  | none =>
    match createTemp w.tempDir w.publicKeyRand "public-key-*.pem" fs with
    | .error err => ⟨some err, fs, none, none, none⟩
    | .ok (publicKeyFile, fs1) =>
      -- defer os.Remove(publicKeyFile.Name())
      let fs2 := fs1.writeString publicKeyFile publicKey w.publicKeyWrite
      match createTemp w.tempDir w.privateKeysRand "private-keys-*.yaml" fs2 with
      | .error err =>
        ⟨some err, fs2.remove publicKeyFile w.publicKeyRemove, some publicKeyFile, none, none⟩
      | .ok (privateKeysFile, fs3) =>
        -- defer os.Remove(privateKeysFile.Name())
        let fs4 := fs3.writeString privateKeysFile privateKeys w.privateKeysWrite
        let sealCmd : Cmd := ⟨"sh", ["-c",
          sealScript privateKeysFile publicKeyFile controllerName controllerNamespace],
          getOut.stdout⟩
        let ran := w.shRun sealCmd fs4
        ⟨runError (shExit ran.stages),
         (ran.fs.remove privateKeysFile w.privateKeysRemove).remove publicKeyFile
           w.publicKeyRemove,
         some publicKeyFile, some privateKeysFile, some (sealCmd, fs4)⟩

/-! ## main -/

/-- One entry of the trace of calls `main` makes.  A `rotateSecret` entry
carries the six arguments of the call and the error it returned. -/
inductive Call where
  | getSealedSecrets
  | fetchPublicKey (controllerName controllerNamespace : String)
  | getPrivateKeys (namespace_ : String)
  | rotateSecret (name namespace_ publicKey privateKeys controllerName
      controllerNamespace : String) (result : GoError)
  deriving DecidableEq, Repr

/-- Whether a trace entry is a `rotateSecret` call. -/
def Call.isRotate : Call → Bool
  | .rotateSecret _ _ _ _ _ _ _ => true
  | _ => false

/-- Whether a trace entry is a `fetchPublicKey` call. -/
def Call.isFetchPublicKey : Call → Bool
  | .fetchPublicKey _ _ => true
  | _ => false

/-- Whether a trace entry is a `getPrivateKeys` call. -/
def Call.isGetPrivateKeys : Call → Bool
  | .getPrivateKeys _ => true
  | _ => false

/-- Everything a run of `main` meets in the outside world. -/
structure Env where
  /-- outcome of `kubectl get SealedSecret -A -o json` -/
  listRun : Cmd → CmdResult
  /-- `json.Unmarshal` of the listing -/
  unmarshal : String → Except String (List SealedSecret)
  /-- outcome of `kubeseal --fetch-cert ...` -/
  certRun : Cmd → CmdResult
  /-- outcome of `kubectl get secret ...` -/
  keysRun : Cmd → CmdResult
  /-- what the `i`-th `rotateSecret` call of the run (counting from 0) meets -/
  rotate : Nat → RotateEnv
  /-- the filesystem when the run starts -/
  fs : FS

/-- The state `main` carries: its local variables `processedCount` and
`processedSecrets`, what it has printed, the filesystem, and the trace of
calls made so far (`rotations` counts the `rotateSecret` calls among them). -/
structure State where
  out : List String
  fs : FS
  calls : List Call
  rotations : Nat
  processedCount : Nat
  processedSecrets : List String

/-- Append chunks to what has been printed. -/
def State.print (st : State) (chunks : List String) : State :=
  { st with out := st.out ++ chunks }

/-- How a run of `main` ended: the process exit code and the final state. -/
structure Outcome where
  exitCode : Nat
  st : State

/-- Body of the `for _, secret := range sealedSecrets` loop of `main`. -/
def processSecret (cfg : Config) (env : Env) (publicKey privateKeys : String)
    (st : State) (secret : SealedSecret) : State :=
  let name := secret.Metadata.Name
  let namespace_ := secret.Metadata.Namespace
  let st :=
    if cfg.Verbose then
      st.print (printInfo ("Processing " ++ name ++ " in namespace " ++ namespace_ ++ "..."))
    else st
  if cfg.DryRun then
    let st := st.print (printInfo ("[DRY RUN] Would process " ++ namespace_ ++ "/" ++ name))
    { st with
      processedCount := st.processedCount + 1
      processedSecrets := st.processedSecrets ++ [namespace_ ++ "/" ++ name] }
  else
    let r := rotateSecret (env.rotate st.rotations) st.fs name namespace_ publicKey privateKeys
      cfg.ControllerName cfg.ControllerNamespace
    let st := { st with
      fs := r.fs
      rotations := st.rotations + 1
      calls := st.calls ++ [Call.rotateSecret name namespace_ publicKey privateKeys
        cfg.ControllerName cfg.ControllerNamespace r.err] }
    match r.err with
    | some err => st.print (printError ("Error processing " ++ name ++ ": " ++ err))
    | none =>
      let st := st.print (printSuccess (namespace_ ++ "/" ++ name ++ " processed"))
      { st with
        processedCount := st.processedCount + 1
        processedSecrets := st.processedSecrets ++ [namespace_ ++ "/" ++ name] }

/-- The summary `main` prints after the loop. -/
def printSummary (processedCount : Nat) (processedSecrets : List String) : List String :=
  printSection "Rotation Complete" ++
  ["🔄 Total SealedSecrets processed: " ++ toString processedCount ++ "\n"] ++
  (processedSecrets.map (fun name => printSuccess (name ++ " processed"))).flatten

/-- Go `main`, with `cfg` the result of `parseFlags()`. -/
def main (cfg : Config) (env : Env) : Outcome :=
  let st : State := ⟨[], env.fs, [], 0, 0, []⟩
  let st :=
    if cfg.Verbose then
      st.print (printSection "Starting SealedSecret rotation process" ++
        printInfo ("Controller: " ++ cfg.ControllerNamespace ++ "/" ++ cfg.ControllerName) ++
        printInfo ("Dry run: " ++ toString cfg.DryRun))
    else st
  let st := st.print (printSection "Fetching all SealedSecrets in the cluster")
  let st := { st with calls := st.calls ++ [Call.getSealedSecrets] }
  match getSealedSecrets env.listRun env.unmarshal with
  | (_, some err) =>
    ⟨1, st.print (printError ("Error getting SealedSecrets: " ++ err))⟩
  | (sealedSecrets, none) =>
    let st := st.print (printSuccess ("Found " ++ toString sealedSecrets.length ++ " SealedSecrets"))
    let st := st.print (printSection "Fetching current public key")
    let st := { st with calls := st.calls ++
      [Call.fetchPublicKey cfg.ControllerName cfg.ControllerNamespace] }
    match fetchPublicKey env.certRun cfg.ControllerName cfg.ControllerNamespace with
    | (_, some err) =>
      ⟨1, st.print (printError ("Error fetching public key: " ++ err))⟩
    | (publicKey, none) =>
      let st := st.print (printSuccess "Public key fetched successfully")
      let st := st.print (printSection "Fetching private keys")
      let st := { st with calls := st.calls ++ [Call.getPrivateKeys cfg.ControllerNamespace] }
      match getPrivateKeys env.keysRun cfg.ControllerNamespace with
      | (_, some err) =>
        ⟨1, st.print (printError ("Error fetching private keys: " ++ err))⟩
      | (privateKeys, none) =>
        let st := st.print (printSuccess "Private keys fetched successfully")
        let st := st.print (printSection "Processing SealedSecrets")
        let st := sealedSecrets.foldl (processSecret cfg env publicKey privateKeys) st
        ⟨0, st.print (printSummary st.processedCount st.processedSecrets)⟩

/-! ## Vocabulary for the statements -/

/-- How `main` renders an item in its reports: `namespace/name`. -/
def label (secret : SealedSecret) : String :=
  secret.Metadata.Namespace ++ "/" ++ secret.Metadata.Name

/-- The trace entry of the `rotateSecret` call `main` makes for `secret`. -/
def rotateCall (cfg : Config) (publicKey privateKeys : String) (secret : SealedSecret)
    (result : GoError) : Call :=
  Call.rotateSecret secret.Metadata.Name secret.Metadata.Namespace publicKey privateKeys
    cfg.ControllerName cfg.ControllerNamespace result

/-- The errors returned by the `rotateSecret` calls of a trace, in call order. -/
def rotateResults : List Call → List GoError
  | [] => []
  | Call.rotateSecret _ _ _ _ _ _ result :: rest => result :: rotateResults rest
  | _ :: rest => rotateResults rest

/-- The three calls `main` makes before the loop, in order. -/
def prologue (cfg : Config) : List Call :=
  [Call.getSealedSecrets,
   Call.fetchPublicKey cfg.ControllerName cfg.ControllerNamespace,
   Call.getPrivateKeys cfg.ControllerNamespace]

/-- The items of `items` paired with a nil result, rendered, in order. -/
def succeeded (items : List SealedSecret) (results : List GoError) : List String :=
  ((items.zip results).filter (fun p => p.2.isNone)).map (fun p => label p.1)

/-! ## A concrete run: three items in two namespaces, the second one fails at apply -/

/-- Flags of a normal run with the default controller. -/
def exampleCfg : Config := ⟨"sealed-secrets", "kube-system", false, false⟩

/-- Flags of a dry run with the default controller. -/
def exampleDryCfg : Config := ⟨"sealed-secrets", "kube-system", true, false⟩

/-- Three sealed secrets across two namespaces. -/
def exampleInventory : List SealedSecret :=
  [⟨⟨"db", "prod"⟩⟩, ⟨⟨"api", "prod"⟩⟩, ⟨⟨"db", "staging"⟩⟩]

/-- A `rotateSecret` call in which every external step succeeds. -/
def rotateOk : RotateEnv :=
  ⟨fun _ => ⟨"MANIFEST", none⟩, "/tmp", .ok "123", none, .ok "456", none,
   fun _ fs => ⟨[0, 0, 0], fs⟩, none, none⟩

/-- A `rotateSecret` call in which the last stage, `kubectl apply`, exits 1. -/
def rotateApplyFails : RotateEnv :=
  ⟨fun _ => ⟨"MANIFEST", none⟩, "/tmp", .ok "123", none, .ok "456", none,
   fun _ fs => ⟨[0, 0, 1], fs⟩, none, none⟩

/-- A world in which listing and key fetching succeed and the second
`rotateSecret` call fails at apply. -/
def exampleEnv : Env :=
  ⟨fun _ => ⟨"LIST", none⟩, fun _ => .ok exampleInventory,
   fun _ => ⟨"CERT", none⟩, fun _ => ⟨"KEYS", none⟩,
   fun i => if i = 1 then rotateApplyFails else rotateOk, []⟩

/-- A world in which listing and key fetching succeed and every
`rotateSecret` call fails at apply. -/
def allFailEnv : Env :=
  ⟨fun _ => ⟨"LIST", none⟩, fun _ => .ok exampleInventory,
   fun _ => ⟨"CERT", none⟩, fun _ => ⟨"KEYS", none⟩,
   fun _ => rotateApplyFails, []⟩

/-- A world in which the listing succeeds and the certificate fetch fails. -/
def certFailEnv : Env :=
  ⟨fun _ => ⟨"LIST", none⟩, fun _ => .ok exampleInventory,
   fun _ => ⟨"", some "exit status 1"⟩, fun _ => ⟨"KEYS", none⟩,
   fun _ => rotateOk, []⟩

/-- A command whose run exits zero and prints nothing. -/
def silentRun : Cmd → CmdResult := fun _ => ⟨"", none⟩

/-- A `rotateSecret` call in which writing the public key fails before any
character is written, and every other step succeeds. -/
def rotateWriteFails : RotateEnv :=
  ⟨fun _ => ⟨"MANIFEST", none⟩, "/tmp", .ok "123", some 0, .ok "456", none,
   fun _ fs => ⟨[0, 0, 0], fs⟩, none, none⟩

/-- A `rotateSecret` call in which the unseal stage exits 1 while reseal and
apply exit 0. -/
def rotateUnsealFails : RotateEnv :=
  ⟨fun _ => ⟨"MANIFEST", none⟩, "/tmp", .ok "123", none, .ok "456", none,
   fun _ fs => ⟨[1, 0, 0], fs⟩, none, none⟩

/-- Two sealed secrets with the same name in different namespaces. -/
def sameNameInventory : List SealedSecret :=
  [⟨⟨"db", "prod"⟩⟩, ⟨⟨"db", "staging"⟩⟩]

/-- A world in which listing and key fetching succeed for `sameNameInventory`
and every `rotateSecret` call fails at apply. -/
def sameNameFailEnv : Env :=
  ⟨fun _ => ⟨"LIST", none⟩, fun _ => .ok sameNameInventory,
   fun _ => ⟨"CERT", none⟩, fun _ => ⟨"KEYS", none⟩,
   fun _ => rotateApplyFails, []⟩

/-- A `rotateSecret` call in which every step up to and including the
pipeline succeeds and both deferred removals fail. -/
def rotateRemoveFails : RotateEnv :=
  ⟨fun _ => ⟨"MANIFEST", none⟩, "/tmp", .ok "123", none, .ok "456", none,
   fun _ fs => ⟨[0, 0, 0], fs⟩,
   some "remove /tmp/private-keys-456.yaml: operation not permitted",
   some "remove /tmp/public-key-123.pem: operation not permitted"⟩

/-! ## How `sh` reads the pipeline line

`rotateSecret` hands a formatted line to `sh -c`.  For a line made of plain
words, blanks and `|` the shell reads it as a pipeline: the commands are the
pieces between `|`, and the words of a command are its maximal runs of
non-blank characters.  `shPipeline` is that reading; it is only meant for
lines without quotes, expansions or other operators. -/

theorem processSecret_dry (cfg : Config) (env : Env) (pub priv : String) (st : State)
    (s : SealedSecret) (hdry : cfg.DryRun = true) :
    (processSecret cfg env pub priv st s).calls = st.calls ∧
    (processSecret cfg env pub priv st s).fs = st.fs ∧
    (processSecret cfg env pub priv st s).rotations = st.rotations ∧
    (processSecret cfg env pub priv st s).processedCount = st.processedCount + 1 ∧
    (processSecret cfg env pub priv st s).processedSecrets = st.processedSecrets ++ [label s] := by
  unfold processSecret
  simp only [hdry, if_true]
  cases cfg.Verbose <;> simp [State.print, label]

theorem processSecret_live (cfg : Config) (env : Env) (pub priv : String) (st : State)
    (s : SealedSecret) (hdry : cfg.DryRun = false) :
    ∃ e : GoError,
    (processSecret cfg env pub priv st s).calls = st.calls ++ [rotateCall cfg pub priv s e] ∧
    (processSecret cfg env pub priv st s).rotations = st.rotations + 1 ∧
    (processSecret cfg env pub priv st s).processedCount =
      st.processedCount + (if e.isNone then 1 else 0) ∧
    (processSecret cfg env pub priv st s).processedSecrets =
      st.processedSecrets ++ (if e.isNone then [label s] else []) := by
  unfold processSecret
  simp only [hdry]
  cases cfg.Verbose <;> simp only [if_true, if_false, Bool.false_eq_true]
  all_goals
    generalize hr : rotateSecret _ _ _ _ _ _ _ _ = r
    refine ⟨r.err, ?_⟩
    cases he : r.err <;> simp [State.print, label, rotateCall, he]

theorem loop_dry (cfg : Config) (env : Env) (pub priv : String) (hdry : cfg.DryRun = true)
    (items : List SealedSecret) : ∀ st : State,
    (items.foldl (processSecret cfg env pub priv) st).calls = st.calls ∧
    (items.foldl (processSecret cfg env pub priv) st).fs = st.fs ∧
    (items.foldl (processSecret cfg env pub priv) st).processedCount =
      st.processedCount + items.length ∧
    (items.foldl (processSecret cfg env pub priv) st).processedSecrets =
      st.processedSecrets ++ items.map label := by
  induction items with
  | nil => intro st; simp
  | cons s rest ih =>
    intro st
    obtain ⟨h1, h2, _, h4, h5⟩ := processSecret_dry cfg env pub priv st s hdry
    obtain ⟨i1, i2, i3, i4⟩ := ih (processSecret cfg env pub priv st s)
    simp only [List.foldl_cons, List.length_cons, List.map_cons]
    refine ⟨by rw [i1, h1], by rw [i2, h2], by rw [i3, h4]; omega, by rw [i4, h5]; simp⟩

theorem loop_live (cfg : Config) (env : Env) (pub priv : String) (hdry : cfg.DryRun = false)
    (items : List SealedSecret) : ∀ st : State, ∃ errs : List GoError,
    errs.length = items.length ∧
    (items.foldl (processSecret cfg env pub priv) st).calls =
      st.calls ++ List.zipWith (rotateCall cfg pub priv) items errs ∧
    (items.foldl (processSecret cfg env pub priv) st).processedCount =
      st.processedCount + (errs.filter Option.isNone).length ∧
    (items.foldl (processSecret cfg env pub priv) st).processedSecrets =
      st.processedSecrets ++ succeeded items errs := by
  induction items with
  | nil => intro st; exact ⟨[], by simp [succeeded]⟩
  | cons s rest ih =>
    intro st
    obtain ⟨e, h1, _, h3, h4⟩ := processSecret_live cfg env pub priv st s hdry
    obtain ⟨errs, i0, i1, i3, i4⟩ := ih (processSecret cfg env pub priv st s)
    refine ⟨e :: errs, by simp [i0], ?_, ?_, ?_⟩
    · simp only [List.foldl_cons, List.zipWith_cons_cons]
      rw [i1, h1]; simp
    · simp only [List.foldl_cons]
      rw [i3, h3]
      cases e <;> simp [List.filter_cons]; omega
    · simp only [List.foldl_cons]
      rw [i4, h4]
      cases e <;> simp [succeeded, List.filter_cons]

theorem rotateResults_zipWith (cfg : Config) (pub priv : String) :
    ∀ (items : List SealedSecret) (errs : List GoError), errs.length = items.length →
    rotateResults (List.zipWith (rotateCall cfg pub priv) items errs) = errs
  | [], [], _ => rfl
  | [], _ :: _, h => by simp at h
  | _ :: _, [], h => by simp at h
  | s :: items, e :: errs, h => by
    have ih := rotateResults_zipWith cfg pub priv items errs (by simpa using h)
    simp only [List.zipWith_cons_cons]
    show e :: rotateResults (List.zipWith (rotateCall cfg pub priv) items errs) = e :: errs
    rw [ih]

theorem filter_isRotate_zipWith (cfg : Config) (pub priv : String) :
    ∀ (items : List SealedSecret) (errs : List GoError),
    (List.zipWith (rotateCall cfg pub priv) items errs).filter Call.isRotate =
      List.zipWith (rotateCall cfg pub priv) items errs
  | [], _ => by simp
  | _ :: _, [] => by simp
  | s :: items, e :: errs => by
    simp only [List.zipWith_cons_cons]
    rw [List.filter_cons_of_pos (by simp [rotateCall, Call.isRotate]),
      filter_isRotate_zipWith cfg pub priv items errs]

theorem flatten_map_singleton {α β : Type} (f : α → β) (l : List α) :
    (l.map (fun a => [f a])).flatten = l.map f := by
  induction l with
  | nil => rfl
  | cons a rest ih => simp [ih]

/-- The summary, line by line: the section header, the count line and one
line per processed name. -/
theorem printSummary_lines (n : Nat) (names : List String) :
    printSummary n names =
      ["\n----------------------------------------------\n",
       "📌 Rotation Complete\n",
       "----------------------------------------------\n",
       "🔄 Total SealedSecrets processed: " ++ toString n ++ "\n"] ++
      names.map (fun name => "✅ " ++ name ++ " processed\n") := by
  have hline : ∀ name : String,
      "✅ " ++ (name ++ " processed") ++ "\n" = "✅ " ++ name ++ " processed\n" := by
    intro name
    apply String.ext
    simp [String.data_append]
  unfold printSummary printSection printSuccess
  rw [flatten_map_singleton (fun name => "✅ " ++ (name ++ " processed") ++ "\n")]
  simp only [hline]
  rfl

/-- When the listing and both key fetches succeed, `main` runs the loop from a
state that has made exactly the three prologue calls, then prints the summary
and ends with exit code 0. -/
theorem main_ok (cfg : Config) (env : Env) (items : List SealedSecret) (pub priv : String)
    (hlist : getSealedSecrets env.listRun env.unmarshal = (items, none))
    (hcert : fetchPublicKey env.certRun cfg.ControllerName cfg.ControllerNamespace = (pub, none))
    (hkeys : getPrivateKeys env.keysRun cfg.ControllerNamespace = (priv, none)) :
    ∃ st0 : State, st0.fs = env.fs ∧ st0.calls = prologue cfg ∧ st0.processedCount = 0 ∧
      st0.processedSecrets = [] ∧
      main cfg env = ⟨0, (items.foldl (processSecret cfg env pub priv) st0).print
        (printSummary (items.foldl (processSecret cfg env pub priv) st0).processedCount
          (items.foldl (processSecret cfg env pub priv) st0).processedSecrets)⟩ := by
  unfold main
  simp only [hlist, hcert, hkeys]
  cases cfg.Verbose <;>
    exact ⟨_, rfl, rfl, rfl, rfl, rfl⟩

theorem filter_isNone_add_isSome (errs : List GoError) :
    (errs.filter Option.isNone).length + (errs.filter Option.isSome).length = errs.length := by
  induction errs with
  | nil => rfl
  | cons e rest ih => cases e <;> simp [List.filter_cons] <;> omega

theorem succeeded_length : ∀ (items : List SealedSecret) (errs : List GoError),
    errs.length = items.length →
    (succeeded items errs).length = (errs.filter Option.isNone).length
  | [], [], _ => rfl
  | [], _ :: _, h => by simp at h
  | _ :: _, [], h => by simp at h
  | s :: items, e :: errs, h => by
    have ih := succeeded_length items errs (by simpa using h)
    unfold succeeded at ih ⊢
    cases e <;> simp [List.filter_cons] <;> simpa using ih

theorem succeeded_sublist : ∀ (items : List SealedSecret) (errs : List GoError),
    List.Sublist (succeeded items errs) (items.map label)
  | [], _ => by simp [succeeded]
  | _ :: _, [] => by simp [succeeded]
  | s :: items, e :: errs => by
    have ih := succeeded_sublist items errs
    unfold succeeded at ih ⊢
    cases e
    · simpa [List.filter_cons] using ih
    · simpa [List.filter_cons] using List.Sublist.cons _ ih

theorem mem_zipWith_rotateCall (cfg : Config) (pub priv : String) (c : Call) :
    ∀ (items : List SealedSecret) (errs : List GoError),
    c ∈ List.zipWith (rotateCall cfg pub priv) items errs →
    ∃ s e, c = rotateCall cfg pub priv s e
  | [], _, h => by simp at h
  | _ :: _, [], h => by simp at h
  | s :: items, e :: errs, h => by
    simp only [List.zipWith_cons_cons, List.mem_cons] at h
    rcases h with h | h
    · exact ⟨s, e, h⟩
    · exact mem_zipWith_rotateCall cfg pub priv c items errs h

theorem main_list_fails (cfg : Config) (env : Env) (items : List SealedSecret) (e : String)
    (hl : getSealedSecrets env.listRun env.unmarshal = (items, some e)) :
    ∃ st1 : State, main cfg env = ⟨1, st1⟩ ∧ st1.processedCount = 0 ∧ st1.fs = env.fs ∧
      st1.calls = (prologue cfg).take 1 := by
  unfold main
  simp only [hl]
  cases cfg.Verbose <;> exact ⟨_, rfl, rfl, rfl, rfl⟩

theorem main_cert_fails (cfg : Config) (env : Env) (items : List SealedSecret)
    (pub e : String)
    (hl : getSealedSecrets env.listRun env.unmarshal = (items, none))
    (hc : fetchPublicKey env.certRun cfg.ControllerName cfg.ControllerNamespace =
      (pub, some e)) :
    ∃ st1 : State, main cfg env = ⟨1, st1⟩ ∧ st1.processedCount = 0 ∧ st1.fs = env.fs ∧
      st1.calls = (prologue cfg).take 2 := by
  unfold main
  simp only [hl, hc]
  cases cfg.Verbose <;> exact ⟨_, rfl, rfl, rfl, rfl⟩

theorem main_keys_fail (cfg : Config) (env : Env) (items : List SealedSecret)
    (pub priv e : String)
    (hl : getSealedSecrets env.listRun env.unmarshal = (items, none))
    (hc : fetchPublicKey env.certRun cfg.ControllerName cfg.ControllerNamespace = (pub, none))
    (hk : getPrivateKeys env.keysRun cfg.ControllerNamespace = (priv, some e)) :
    ∃ st1 : State, main cfg env = ⟨1, st1⟩ ∧ st1.processedCount = 0 ∧ st1.fs = env.fs ∧
      st1.calls = (prologue cfg).take 3 := by
  unfold main
  simp only [hl, hc, hk]
  cases cfg.Verbose <;> exact ⟨_, rfl, rfl, rfl, rfl⟩

/-- Every run of `main` either stops at a failed precondition, having made a
prefix of the prologue calls and nothing else, or passes all three and then
makes only `rotateSecret` calls with the fetched keys. -/
theorem main_cases (cfg : Config) (env : Env) :
    ((main cfg env).exitCode = 1 ∧ (main cfg env).st.processedCount = 0 ∧
      (main cfg env).st.fs = env.fs ∧
      (∃ k, k ≤ 3 ∧ (main cfg env).st.calls = (prologue cfg).take k) ∧
      ((getSealedSecrets env.listRun env.unmarshal).2 ≠ none ∨
       (fetchPublicKey env.certRun cfg.ControllerName cfg.ControllerNamespace).2 ≠ none ∨
       (getPrivateKeys env.keysRun cfg.ControllerNamespace).2 ≠ none)) ∨
    (∃ items pub priv errs,
      getSealedSecrets env.listRun env.unmarshal = (items, none) ∧
      fetchPublicKey env.certRun cfg.ControllerName cfg.ControllerNamespace = (pub, none) ∧
      getPrivateKeys env.keysRun cfg.ControllerNamespace = (priv, none) ∧
      (main cfg env).exitCode = 0 ∧
      (main cfg env).st.calls =
        prologue cfg ++ List.zipWith (rotateCall cfg pub priv) items errs) := by
  rcases hl : getSealedSecrets env.listRun env.unmarshal with ⟨items, _ | e1⟩
  · rcases hc : fetchPublicKey env.certRun cfg.ControllerName cfg.ControllerNamespace
      with ⟨pub, _ | e2⟩
    · rcases hk : getPrivateKeys env.keysRun cfg.ControllerNamespace with ⟨priv, _ | e3⟩
      · right
        obtain ⟨st0, _, hcalls, _, _, hmain⟩ := main_ok cfg env items pub priv hl hc hk
        cases hdry : cfg.DryRun
        · obtain ⟨errs, _, h1, _, _⟩ := loop_live cfg env pub priv hdry items st0
          exact ⟨items, pub, priv, errs, rfl, rfl, rfl, by rw [hmain],
            by rw [hmain]; simp [State.print, h1, hcalls]⟩
        · obtain ⟨h1, _, _, _⟩ := loop_dry cfg env pub priv hdry items st0
          exact ⟨items, pub, priv, [], rfl, rfl, rfl, by rw [hmain],
            by rw [hmain]; simp [State.print, h1, hcalls]⟩
      · left
        obtain ⟨st1, hm, h1, h2, h3⟩ := main_keys_fail cfg env items pub priv e3 hl hc hk
        rw [hm]
        exact ⟨rfl, h1, h2, ⟨3, le_refl 3, h3⟩, Or.inr (Or.inr (by simp))⟩
    · left
      obtain ⟨st1, hm, h1, h2, h3⟩ := main_cert_fails cfg env items pub e2 hl hc
      rw [hm]
      exact ⟨rfl, h1, h2, ⟨2, by omega, h3⟩, Or.inr (Or.inl (by simp))⟩
  · left
    obtain ⟨st1, hm, h1, h2, h3⟩ := main_list_fails cfg env items e1 hl
    rw [hm]
    exact ⟨rfl, h1, h2, ⟨1, by omega, h3⟩, Or.inl (by simp)⟩

theorem not_isRotate_of_mem_prologue (cfg : Config) (c : Call) (k : Nat)
    (h : c ∈ (prologue cfg).take k) : c.isRotate = false := by
  have hm : c ∈ prologue cfg := List.mem_of_mem_take h
  simp only [prologue, List.mem_cons, List.mem_singleton, List.not_mem_nil, or_false] at hm
  rcases hm with rfl | rfl | rfl <;> rfl


/-! ## Lemmas about `rotateSecret` -/

theorem not_mem_paths_remove (fs : FS) (p : String) : p ∉ (fs.remove p none).paths := by
  simp [FS.remove, FS.paths, List.mem_filter]

theorem not_mem_paths_remove_remove (fs : FS) (p q : String) (result : GoError) :
    p ∉ ((fs.remove p none).remove q result).paths := by
  cases result <;> simp [FS.remove, FS.paths, List.mem_filter]

theorem rotateSecret_get_fails (w : RotateEnv) (fs : FS)
    (name namespace_ publicKey privateKeys controllerName controllerNamespace e : String)
    (hget : (w.getRun (getCmd name namespace_)).err = some e) :
    rotateSecret w fs name namespace_ publicKey privateKeys controllerName controllerNamespace =
      ⟨some e, fs, none, none, none⟩ := by
  unfold rotateSecret
  simp only [hget]

theorem rotateSecret_public_fails (w : RotateEnv) (fs : FS)
    (name namespace_ publicKey privateKeys controllerName controllerNamespace e : String)
    (hget : (w.getRun (getCmd name namespace_)).err = none)
    (hpub : createTemp w.tempDir w.publicKeyRand "public-key-*.pem" fs = .error e) :
    rotateSecret w fs name namespace_ publicKey privateKeys controllerName controllerNamespace =
      ⟨some e, fs, none, none, none⟩ := by
  unfold rotateSecret
  simp only [hget, hpub]

theorem rotateSecret_private_fails (w : RotateEnv) (fs fs1 : FS)
    (name namespace_ publicKey privateKeys controllerName controllerNamespace f1 e : String)
    (hget : (w.getRun (getCmd name namespace_)).err = none)
    (hpub : createTemp w.tempDir w.publicKeyRand "public-key-*.pem" fs = .ok (f1, fs1))
    (hpriv : createTemp w.tempDir w.privateKeysRand "private-keys-*.yaml"
      (fs1.writeString f1 publicKey w.publicKeyWrite) = .error e) :
    rotateSecret w fs name namespace_ publicKey privateKeys controllerName controllerNamespace =
      ⟨some e, (fs1.writeString f1 publicKey w.publicKeyWrite).remove f1 w.publicKeyRemove,
        some f1, none, none⟩ := by
  unfold rotateSecret
  simp only [hget, hpub, hpriv]

theorem rotateSecret_runs (w : RotateEnv) (fs fs1 fs3 : FS)
    (name namespace_ publicKey privateKeys controllerName controllerNamespace f1 f2 : String)
    (hget : (w.getRun (getCmd name namespace_)).err = none)
    (hpub : createTemp w.tempDir w.publicKeyRand "public-key-*.pem" fs = .ok (f1, fs1))
    (hpriv : createTemp w.tempDir w.privateKeysRand "private-keys-*.yaml"
      (fs1.writeString f1 publicKey w.publicKeyWrite) = .ok (f2, fs3)) :
    rotateSecret w fs name namespace_ publicKey privateKeys controllerName controllerNamespace =
      ⟨runError (shExit (w.shRun
          ⟨"sh", ["-c", sealScript f2 f1 controllerName controllerNamespace],
            (w.getRun (getCmd name namespace_)).stdout⟩
          (fs3.writeString f2 privateKeys w.privateKeysWrite)).stages),
       ((w.shRun
          ⟨"sh", ["-c", sealScript f2 f1 controllerName controllerNamespace],
            (w.getRun (getCmd name namespace_)).stdout⟩
          (fs3.writeString f2 privateKeys w.privateKeysWrite)).fs.remove f2
            w.privateKeysRemove).remove f1 w.publicKeyRemove,
       some f1, some f2,
       some (⟨"sh", ["-c", sealScript f2 f1 controllerName controllerNamespace],
            (w.getRun (getCmd name namespace_)).stdout⟩,
          fs3.writeString f2 privateKeys w.privateKeysWrite)⟩ := by
  unfold rotateSecret
  simp only [hget, hpub, hpriv]


theorem runError_eq_none (status : Nat) : runError status = none ↔ status = 0 := by
  unfold runError
  split <;> simp [*]

/-- What does surface: `rotateSecret` returns nil exactly when it got as far as
running the shell pipeline and the last command of that pipeline exited 0.  A
failed get, a failed creation of either temp file and a non-zero last stage
all give a non-nil error. -/
theorem rotateSecret_nil_iff (w : RotateEnv) (fs : FS)
    (name namespace_ publicKey privateKeys controllerName controllerNamespace : String) :
    (rotateSecret w fs name namespace_ publicKey privateKeys controllerName
      controllerNamespace).err = none ↔
    ∃ cmd fsAt, (rotateSecret w fs name namespace_ publicKey privateKeys controllerName
      controllerNamespace).sealRun = some (cmd, fsAt) ∧
      shExit (w.shRun cmd fsAt).stages = 0 := by
  rcases hget : (w.getRun (getCmd name namespace_)).err with _ | e
  · rcases hpub : createTemp w.tempDir w.publicKeyRand "public-key-*.pem" fs
      with e1 | ⟨f1, fs1⟩
    · rw [rotateSecret_public_fails w fs name namespace_ publicKey privateKeys controllerName
        controllerNamespace e1 hget hpub]
      simp
    · rcases hpriv : createTemp w.tempDir w.privateKeysRand "private-keys-*.yaml"
        (fs1.writeString f1 publicKey w.publicKeyWrite) with e2 | ⟨f2, fs3⟩
      · rw [rotateSecret_private_fails w fs fs1 name namespace_ publicKey privateKeys
          controllerName controllerNamespace f1 e2 hget hpub hpriv]
        simp
      · rw [rotateSecret_runs w fs fs1 fs3 name namespace_ publicKey privateKeys
          controllerName controllerNamespace f1 f2 hget hpub hpriv]
        simp only [runError_eq_none, Option.some.injEq, Prod.mk.injEq]
        constructor
        · intro h
          exact ⟨_, _, ⟨rfl, rfl⟩, h⟩
        · rintro ⟨cmd, fsAt, ⟨rfl, rfl⟩, h⟩
          exact h
  · rw [rotateSecret_get_fails w fs name namespace_ publicKey privateKeys controllerName
      controllerNamespace e hget]
    simp

/-! ## Lemmas about the shell reading of the pipeline line -/

/-- C1. Failure isolation and count: when listing and both key fetches succeed
and dry-run is off, the `rotateSecret` calls of the run are exactly one per
inventoried item, in inventory order, each with that item's name and namespace
(whatever earlier calls returned), and the processed count is the inventory
size minus the number of calls that returned an error. -/
theorem C1_failure_isolation_and_count (cfg : Config) (env : Env)
    (items : List SealedSecret) (pub priv : String)
    (hdry : cfg.DryRun = false)
    (hlist : getSealedSecrets env.listRun env.unmarshal = (items, none))
    (hcert : fetchPublicKey env.certRun cfg.ControllerName cfg.ControllerNamespace =
      (pub, none))
    (hkeys : getPrivateKeys env.keysRun cfg.ControllerNamespace = (priv, none)) :
    (rotateResults (main cfg env).st.calls).length = items.length ∧
    (main cfg env).st.calls.filter Call.isRotate =
      List.zipWith (rotateCall cfg pub priv) items (rotateResults (main cfg env).st.calls) ∧
    (main cfg env).st.processedCount +
      ((rotateResults (main cfg env).st.calls).filter Option.isSome).length = items.length ∧
    (main cfg env).st.processedCount =
      items.length - ((rotateResults (main cfg env).st.calls).filter Option.isSome).length := by
  obtain ⟨st0, _, hcalls, hcount, _, hmain⟩ := main_ok cfg env items pub priv hlist hcert hkeys
  obtain ⟨errs, hlen, h1, h2, _⟩ := loop_live cfg env pub priv hdry items st0
  have hc : (main cfg env).st.calls =
      prologue cfg ++ List.zipWith (rotateCall cfg pub priv) items errs := by
    rw [hmain]; simp [State.print, h1, hcalls]
  have hres : rotateResults (main cfg env).st.calls = errs := by
    rw [hc]
    exact rotateResults_zipWith cfg pub priv items errs hlen
  have hn : (main cfg env).st.processedCount = (errs.filter Option.isNone).length := by
    rw [hmain]; simp [State.print, h2, hcount]
  have hsplit := filter_isNone_add_isSome errs
  refine ⟨by rw [hres, hlen], ?_, by rw [hres, hn]; omega, by rw [hres, hn]; omega⟩
  rw [hres, hc]
  have hz := filter_isRotate_zipWith cfg pub priv items errs
  simp only [List.filter_append, hz]
  simp [prologue, Call.isRotate]

/-- C1 at the three-item inventory whose second item fails at apply: three
calls, one per item and in inventory order, and a count of 2. -/
theorem C1_failure_isolation_and_count_witness :
    exampleCfg.DryRun = false ∧
    getSealedSecrets exampleEnv.listRun exampleEnv.unmarshal = (exampleInventory, none) ∧
    fetchPublicKey exampleEnv.certRun exampleCfg.ControllerName exampleCfg.ControllerNamespace =
      ("CERT", none) ∧
    getPrivateKeys exampleEnv.keysRun exampleCfg.ControllerNamespace = ("KEYS", none) ∧
    (rotateResults (main exampleCfg exampleEnv).st.calls).length = 3 ∧
    (main exampleCfg exampleEnv).st.calls.filter Call.isRotate =
      [Call.rotateSecret "db" "prod" "CERT" "KEYS" "sealed-secrets" "kube-system" none,
       Call.rotateSecret "api" "prod" "CERT" "KEYS" "sealed-secrets" "kube-system"
         (some "exit status 1"),
       Call.rotateSecret "db" "staging" "CERT" "KEYS" "sealed-secrets" "kube-system" none] ∧
    (main exampleCfg exampleEnv).st.processedCount + 1 = 3 ∧
    (main exampleCfg exampleEnv).st.processedCount = 3 - 1 :=
  ⟨rfl, rfl, rfl, rfl,
   C1_failure_isolation_and_count exampleCfg exampleEnv exampleInventory "CERT" "KEYS"
     rfl rfl rfl rfl⟩

/-- C2. Dry-run: when dry-run is enabled and listing and key fetching succeed,
`main` makes no `rotateSecret` call (its calls are the three prologue calls
and nothing else, and the filesystem is untouched), the processed count is the
inventory size, the processed list holds one entry per inventoried item, in
order, and the last thing it prints is the summary: the section header
`Rotation Complete`, the line `Total SealedSecrets processed: N`, and one line
`namespace/name processed` per inventoried item, in inventory order. -/
theorem C2_dry_run_bypasses_rotation (cfg : Config) (env : Env)
    (items : List SealedSecret) (pub priv : String)
    (hdry : cfg.DryRun = true)
    (hlist : getSealedSecrets env.listRun env.unmarshal = (items, none))
    (hcert : fetchPublicKey env.certRun cfg.ControllerName cfg.ControllerNamespace =
      (pub, none))
    (hkeys : getPrivateKeys env.keysRun cfg.ControllerNamespace = (priv, none)) :
    (main cfg env).st.calls = prologue cfg ∧
    (main cfg env).st.calls.filter Call.isRotate = [] ∧
    (main cfg env).st.fs = env.fs ∧
    (main cfg env).st.processedCount = items.length ∧
    (main cfg env).st.processedSecrets = items.map label ∧
    ∃ before, (main cfg env).st.out = before ++
      ["\n----------------------------------------------\n",
       "📌 Rotation Complete\n",
       "----------------------------------------------\n",
       "🔄 Total SealedSecrets processed: " ++ toString items.length ++ "\n"] ++
      items.map (fun s =>
        "✅ " ++ s.Metadata.Namespace ++ "/" ++ s.Metadata.Name ++ " processed\n") := by
  obtain ⟨st0, hfs, hcalls, hcount, hsecs, hmain⟩ :=
    main_ok cfg env items pub priv hlist hcert hkeys
  obtain ⟨h1, h2, h3, h4⟩ := loop_dry cfg env pub priv hdry items st0
  have hc : (main cfg env).st.calls = prologue cfg := by
    rw [hmain]; simp [State.print, h1, hcalls]
  refine ⟨hc, ?_, ?_, ?_, ?_, ?_⟩
  · rw [hc]; rfl
  · rw [hmain]; simp [State.print, h2, hfs]
  · rw [hmain]; simp [State.print, h3, hcount]
  · rw [hmain]; simp [State.print, h4, hsecs]
  · rw [hmain]
    refine ⟨(items.foldl (processSecret cfg env pub priv) st0).out, ?_⟩
    have hline : ∀ s : SealedSecret, "✅ " ++ label s ++ " processed\n" =
        "✅ " ++ s.Metadata.Namespace ++ "/" ++ s.Metadata.Name ++ " processed\n" := by
      intro s
      apply String.ext
      simp [label, String.data_append]
    simp only [State.print, h3, h4, hcount, hsecs, printSummary_lines, List.nil_append,
      Nat.zero_add, List.map_map, Function.comp_def, hline, List.append_assoc]

/-- C2 at the three-item inventory: no rotation, three items reported. -/
theorem C2_dry_run_bypasses_rotation_witness :
    exampleDryCfg.DryRun = true ∧
    getSealedSecrets exampleEnv.listRun exampleEnv.unmarshal = (exampleInventory, none) ∧
    fetchPublicKey exampleEnv.certRun exampleDryCfg.ControllerName
      exampleDryCfg.ControllerNamespace = ("CERT", none) ∧
    getPrivateKeys exampleEnv.keysRun exampleDryCfg.ControllerNamespace = ("KEYS", none) ∧
    (main exampleDryCfg exampleEnv).st.calls = prologue exampleDryCfg ∧
    (main exampleDryCfg exampleEnv).st.calls.filter Call.isRotate = [] ∧
    (main exampleDryCfg exampleEnv).st.fs = exampleEnv.fs ∧
    (main exampleDryCfg exampleEnv).st.processedCount = 3 ∧
    (main exampleDryCfg exampleEnv).st.processedSecrets = ["prod/db", "prod/api", "staging/db"] ∧
    (main exampleDryCfg exampleEnv).st.out.drop 15 =
      ["ℹ️  [DRY RUN] Would process prod/db\n",
       "ℹ️  [DRY RUN] Would process prod/api\n",
       "ℹ️  [DRY RUN] Would process staging/db\n",
       "\n----------------------------------------------\n",
       "📌 Rotation Complete\n",
       "----------------------------------------------\n",
       "🔄 Total SealedSecrets processed: 3\n",
       "✅ prod/db processed\n",
       "✅ prod/api processed\n",
       "✅ staging/db processed\n"] ∧
    ∃ before, (main exampleDryCfg exampleEnv).st.out = before ++
      ["\n----------------------------------------------\n",
       "📌 Rotation Complete\n",
       "----------------------------------------------\n",
       "🔄 Total SealedSecrets processed: 3\n"] ++
      ["✅ prod/db processed\n", "✅ prod/api processed\n", "✅ staging/db processed\n"] :=
  ⟨rfl, rfl, rfl, rfl,
   (C2_dry_run_bypasses_rotation exampleDryCfg exampleEnv exampleInventory "CERT" "KEYS"
     rfl rfl rfl rfl).1,
   (C2_dry_run_bypasses_rotation exampleDryCfg exampleEnv exampleInventory "CERT" "KEYS"
     rfl rfl rfl rfl).2.1,
   (C2_dry_run_bypasses_rotation exampleDryCfg exampleEnv exampleInventory "CERT" "KEYS"
     rfl rfl rfl rfl).2.2.1,
   (C2_dry_run_bypasses_rotation exampleDryCfg exampleEnv exampleInventory "CERT" "KEYS"
     rfl rfl rfl rfl).2.2.2.1,
   (C2_dry_run_bypasses_rotation exampleDryCfg exampleEnv exampleInventory "CERT" "KEYS"
     rfl rfl rfl rfl).2.2.2.2.1,
   by decide,
   (C2_dry_run_bypasses_rotation exampleDryCfg exampleEnv exampleInventory "CERT" "KEYS"
     rfl rfl rfl rfl).2.2.2.2.2⟩

/-- C3. Exit status: for every configuration and every outcome of the external
commands, `main` ends with exit code 1 if `getSealedSecrets`, `fetchPublicKey`
or `getPrivateKeys` returns an error, and with exit code 0 otherwise, whatever
the `rotateSecret` calls returned. -/
theorem C3_exit_status (cfg : Config) (env : Env) :
    (main cfg env).exitCode =
      if (getSealedSecrets env.listRun env.unmarshal).2 = none ∧
         (fetchPublicKey env.certRun cfg.ControllerName cfg.ControllerNamespace).2 = none ∧
         (getPrivateKeys env.keysRun cfg.ControllerNamespace).2 = none
      then 0 else 1 := by
  rcases main_cases cfg env with ⟨h1, _, _, _, hf⟩ | ⟨items, pub, priv, errs, hl, hc, hk, h0, _⟩
  · rw [h1, if_neg]
    rintro ⟨a, b, c⟩
    rcases hf with h | h | h
    · exact h a
    · exact h b
    · exact h c
  · rw [h0, hl, hc, hk]; simp

/-- C3 at a run in which every `rotateSecret` call fails: nothing is processed
and the exit code is still 0. -/
theorem C3_exit_status_witness :
    (main exampleCfg allFailEnv).st.processedCount = 0 ∧
    (main exampleCfg allFailEnv).exitCode = 0 :=
  ⟨by decide, C3_exit_status exampleCfg allFailEnv⟩

/-- C4. Batch precondition on keys: in every run, `fetchPublicKey` and
`getPrivateKeys` are each called at most once; every `rotateSecret` call in
the trace comes after the three prologue calls, in a run where the listing and
both key fetches succeeded, and carries exactly the public key and private key
bundle those fetches returned; and if the public-key fetch fails, the run
exits non-zero with zero items processed and no `rotateSecret` call. -/
theorem C4_keys_fetched_once_before_rotation (cfg : Config) (env : Env) :
    ((main cfg env).st.calls.filter Call.isFetchPublicKey).length ≤ 1 ∧
    ((main cfg env).st.calls.filter Call.isGetPrivateKeys).length ≤ 1 ∧
    (∀ (i : Nat) (name namespace_ publicKey privateKeys cn cns : String) (result : GoError),
      (main cfg env).st.calls[i]? =
        some (Call.rotateSecret name namespace_ publicKey privateKeys cn cns result) →
      3 ≤ i ∧ (main cfg env).st.calls.take 3 = prologue cfg ∧
      (getSealedSecrets env.listRun env.unmarshal).2 = none ∧
      fetchPublicKey env.certRun cfg.ControllerName cfg.ControllerNamespace =
        (publicKey, none) ∧
      getPrivateKeys env.keysRun cfg.ControllerNamespace = (privateKeys, none)) ∧
    ((fetchPublicKey env.certRun cfg.ControllerName cfg.ControllerNamespace).2 ≠ none →
      (main cfg env).exitCode ≠ 0 ∧ (main cfg env).st.processedCount = 0 ∧
      (main cfg env).st.calls.filter Call.isRotate = [] ∧
      (main cfg env).st.fs = env.fs) := by
  rcases main_cases cfg env with
    ⟨h1, hcount, hfs, ⟨k, hk3, hcalls⟩, _⟩ | ⟨items, pub, priv, errs, hl, hc, hk, h0, hcalls⟩
  · have hnone : ∀ c ∈ (main cfg env).st.calls, c.isRotate = false := by
      intro c hc; rw [hcalls] at hc; exact not_isRotate_of_mem_prologue cfg c k hc
    refine ⟨?_, ?_, ?_, ?_⟩
    · rw [hcalls]; interval_cases k <;> simp [prologue, Call.isFetchPublicKey]
    · rw [hcalls]; interval_cases k <;> simp [prologue, Call.isGetPrivateKeys]
    · intro i name namespace_ publicKey privateKeys cn cns result hi
      have := hnone _ (List.getElem?_mem hi)
      simp [Call.isRotate] at this
    · intro _
      refine ⟨by rw [h1]; decide, hcount, ?_, hfs⟩
      rw [List.filter_eq_nil_iff]
      intro c hc; simp [hnone c hc]
  · have hz : ∀ c ∈ List.zipWith (rotateCall cfg pub priv) items errs,
        ∃ s e, c = rotateCall cfg pub priv s e :=
      fun c hc => mem_zipWith_rotateCall cfg pub priv c items errs hc
    refine ⟨?_, ?_, ?_, ?_⟩
    · have hnil : (List.zipWith (rotateCall cfg pub priv) items errs).filter
          Call.isFetchPublicKey = [] := by
        rw [List.filter_eq_nil_iff]
        intro c hc
        obtain ⟨s, e, rfl⟩ := hz c hc
        simp [rotateCall, Call.isFetchPublicKey]
      rw [hcalls, List.filter_append, hnil]
      simp [prologue, Call.isFetchPublicKey]
    · have hnil : (List.zipWith (rotateCall cfg pub priv) items errs).filter
          Call.isGetPrivateKeys = [] := by
        rw [List.filter_eq_nil_iff]
        intro c hc
        obtain ⟨s, e, rfl⟩ := hz c hc
        simp [rotateCall, Call.isGetPrivateKeys]
      rw [hcalls, List.filter_append, hnil]
      simp [prologue, Call.isGetPrivateKeys]
    · intro i name namespace_ publicKey privateKeys cn cns result hi
      rw [hcalls] at hi
      have hlen : (prologue cfg).length = 3 := rfl
      have hi3 : 3 ≤ i := by
        by_contra hlt
        rw [List.getElem?_append_left (by omega)] at hi
        have := not_isRotate_of_mem_prologue cfg _ 3 (List.getElem?_mem hi)
        simp [Call.isRotate] at this
      rw [List.getElem?_append_right (by omega)] at hi
      obtain ⟨s, e, hse⟩ := hz _ (List.getElem?_mem hi)
      simp only [rotateCall, Call.rotateSecret.injEq] at hse
      obtain ⟨_, _, hp, hs, _, _, _⟩ := hse
      refine ⟨hi3, ?_, by rw [hl], by rw [hc, hp], by rw [hk, hs]⟩
      rw [hcalls, List.take_left' hlen]
    · intro hne
      rw [hc] at hne
      exact absurd rfl hne

/-- C4 at a run whose certificate fetch fails: exit code 1, nothing processed. -/
theorem C4_keys_fetched_once_before_rotation_witness :
    (fetchPublicKey certFailEnv.certRun exampleCfg.ControllerName
      exampleCfg.ControllerNamespace).2 ≠ none ∧
    (main exampleCfg certFailEnv).exitCode ≠ 0 ∧
    (main exampleCfg certFailEnv).st.processedCount = 0 ∧
    (main exampleCfg certFailEnv).st.calls.filter Call.isRotate = [] ∧
    (main exampleCfg certFailEnv).st.fs = certFailEnv.fs :=
  ⟨by decide,
   (C4_keys_fetched_once_before_rotation exampleCfg certFailEnv).2.2.2 (by decide)⟩

/-- C10. Summary consistency: in every run that reaches the summary, the
last thing printed is the section header `Rotation Complete`, the line
`Total SealedSecrets processed: n` and then one line `name processed` per
entry of the per-item list, where `n` is the length of that list, and that
list is the inventory rendered as
`namespace/name`, in order, restricted to the items that were dry-run (all of
them) or whose `rotateSecret` call returned nil (position by position), so the
items whose rotation failed are left out. -/
theorem C10_summary_consistency (cfg : Config) (env : Env)
    (items : List SealedSecret) (pub priv : String)
    (hlist : getSealedSecrets env.listRun env.unmarshal = (items, none))
    (hcert : fetchPublicKey env.certRun cfg.ControllerName cfg.ControllerNamespace =
      (pub, none))
    (hkeys : getPrivateKeys env.keysRun cfg.ControllerNamespace = (priv, none)) :
    (∃ before, (main cfg env).st.out = before ++
      ["\n----------------------------------------------\n",
       "📌 Rotation Complete\n",
       "----------------------------------------------\n",
       "🔄 Total SealedSecrets processed: " ++
         toString (main cfg env).st.processedSecrets.length ++ "\n"] ++
      (main cfg env).st.processedSecrets.map (fun name => "✅ " ++ name ++ " processed\n")) ∧
    (main cfg env).st.processedCount = (main cfg env).st.processedSecrets.length ∧
    (cfg.DryRun = true → (main cfg env).st.processedSecrets = items.map label) ∧
    (cfg.DryRun = false →
      (rotateResults (main cfg env).st.calls).length = items.length ∧
      (main cfg env).st.processedSecrets =
        succeeded items (rotateResults (main cfg env).st.calls)) ∧
    List.Sublist (main cfg env).st.processedSecrets (items.map label) := by
  obtain ⟨st0, _, hcalls, hcount, hsecs, hmain⟩ :=
    main_ok cfg env items pub priv hlist hcert hkeys
  have hout : (main cfg env).st.out =
      (items.foldl (processSecret cfg env pub priv) st0).out ++
        printSummary (main cfg env).st.processedCount (main cfg env).st.processedSecrets := by
    rw [hmain]; rfl
  have hpc : (main cfg env).st.processedCount =
      (items.foldl (processSecret cfg env pub priv) st0).processedCount := by rw [hmain]; rfl
  have hps : (main cfg env).st.processedSecrets =
      (items.foldl (processSecret cfg env pub priv) st0).processedSecrets := by rw [hmain]; rfl
  have hca : (main cfg env).st.calls =
      (items.foldl (processSecret cfg env pub priv) st0).calls := by rw [hmain]; rfl
  cases hdry : cfg.DryRun
  · obtain ⟨errs, hlen, h1, h2, h3⟩ := loop_live cfg env pub priv hdry items st0
    have hres : rotateResults (main cfg env).st.calls = errs := by
      rw [hca, h1, hcalls]
      exact rotateResults_zipWith cfg pub priv items errs hlen
    have hsec : (main cfg env).st.processedSecrets = succeeded items errs := by
      rw [hps, h3, hsecs]; rfl
    have hcnt : (main cfg env).st.processedCount =
        (main cfg env).st.processedSecrets.length := by
      rw [hsec, succeeded_length items errs hlen, hpc, h2, hcount]; simp
    refine ⟨⟨_, by rw [hout, hcnt, printSummary_lines, List.append_assoc]⟩, hcnt, by simp,
      fun _ => ⟨by rw [hres, hlen], by rw [hres, hsec]⟩, ?_⟩
    rw [hsec]; exact succeeded_sublist items errs
  · obtain ⟨_, _, h3, h4⟩ := loop_dry cfg env pub priv hdry items st0
    have hsec : (main cfg env).st.processedSecrets = items.map label := by
      rw [hps, h4, hsecs]; rfl
    have hcnt : (main cfg env).st.processedCount =
        (main cfg env).st.processedSecrets.length := by
      rw [hsec, hpc, h3, hcount]; simp
    refine ⟨⟨_, by rw [hout, hcnt, printSummary_lines, List.append_assoc]⟩, hcnt, fun _ => hsec, by simp, ?_⟩
    rw [hsec]

/-- C10 at the three-item inventory whose second item fails: the run prints
the two successes and the failure, then a summary with count 2 that lists the
first and the third item. -/
theorem C10_summary_consistency_witness :
    getSealedSecrets exampleEnv.listRun exampleEnv.unmarshal = (exampleInventory, none) ∧
    fetchPublicKey exampleEnv.certRun exampleCfg.ControllerName exampleCfg.ControllerNamespace =
      ("CERT", none) ∧
    getPrivateKeys exampleEnv.keysRun exampleCfg.ControllerNamespace = ("KEYS", none) ∧
    (∃ before, (main exampleCfg exampleEnv).st.out = before ++
      ["\n----------------------------------------------\n",
       "📌 Rotation Complete\n",
       "----------------------------------------------\n",
       "🔄 Total SealedSecrets processed: 2\n"] ++
      ["✅ prod/db processed\n", "✅ staging/db processed\n"]) ∧
    (main exampleCfg exampleEnv).st.processedCount = 2 ∧
    (exampleCfg.DryRun = false →
      (rotateResults (main exampleCfg exampleEnv).st.calls).length = 3 ∧
      (main exampleCfg exampleEnv).st.processedSecrets = ["prod/db", "staging/db"]) ∧
    (main exampleCfg exampleEnv).st.out.drop 15 =
      ["✅ prod/db processed\n",
       "❌ Error processing api: exit status 1\n",
       "✅ staging/db processed\n",
       "\n----------------------------------------------\n",
       "📌 Rotation Complete\n",
       "----------------------------------------------\n",
       "🔄 Total SealedSecrets processed: 2\n",
       "✅ prod/db processed\n",
       "✅ staging/db processed\n"] :=
  ⟨rfl, rfl, rfl,
   (C10_summary_consistency exampleCfg exampleEnv exampleInventory "CERT" "KEYS"
      rfl rfl rfl).1,
   (C10_summary_consistency exampleCfg exampleEnv exampleInventory "CERT" "KEYS"
      rfl rfl rfl).2.1,
   (C10_summary_consistency exampleCfg exampleEnv exampleInventory "CERT" "KEYS"
      rfl rfl rfl).2.2.2.1,
   by decide⟩

/-! ## Properties of `rotateSecret` and the fetchers -/

/-- C6 as stated fails: when every step up to the pipeline succeeds and both
deferred `os.Remove` calls fail, `rotateSecret` returns nil and both key files
it created are still among the files present. -/
theorem C6_temp_files_removed_counterexample :
    (rotateSecret rotateRemoveFails [] "db" "prod" "CERT" "KEYS" "sealed-secrets"
      "kube-system").err = none ∧
    (rotateSecret rotateRemoveFails [] "db" "prod" "CERT" "KEYS" "sealed-secrets"
      "kube-system").publicKeyFile = some "/tmp/public-key-123.pem" ∧
    (rotateSecret rotateRemoveFails [] "db" "prod" "CERT" "KEYS" "sealed-secrets"
      "kube-system").privateKeysFile = some "/tmp/private-keys-456.yaml" ∧
    (rotateSecret rotateRemoveFails [] "db" "prod" "CERT" "KEYS" "sealed-secrets"
      "kube-system").fs =
      [("/tmp/private-keys-456.yaml", bytesOf "KEYS"),
       ("/tmp/public-key-123.pem", bytesOf "CERT")] := by
  decide

/-- C6 (amended). Resource safety: on every execution path of `rotateSecret`
(the get fails, the first or the second temp-file creation fails, the pipeline
fails, or everything succeeds, whatever the pipeline did to the filesystem),
a call that created no public-key file created no private-keys file either and
returns the filesystem it was given; and each key temp file the call created
is absent from the files present after the return whenever the deferred
`os.Remove` of that file succeeds. -/
theorem C6_temp_files_removed (w : RotateEnv) (fs : FS)
    (name namespace_ publicKey privateKeys controllerName controllerNamespace : String) :
    ((rotateSecret w fs name namespace_ publicKey privateKeys controllerName
        controllerNamespace).publicKeyFile = none →
      (rotateSecret w fs name namespace_ publicKey privateKeys controllerName
        controllerNamespace).privateKeysFile = none ∧
      (rotateSecret w fs name namespace_ publicKey privateKeys controllerName
        controllerNamespace).fs = fs) ∧
    (∀ p, (rotateSecret w fs name namespace_ publicKey privateKeys controllerName
        controllerNamespace).publicKeyFile = some p →
      w.publicKeyRemove = none →
      p ∉ (rotateSecret w fs name namespace_ publicKey privateKeys controllerName
        controllerNamespace).fs.paths) ∧
    (∀ p, (rotateSecret w fs name namespace_ publicKey privateKeys controllerName
        controllerNamespace).privateKeysFile = some p →
      w.privateKeysRemove = none →
      p ∉ (rotateSecret w fs name namespace_ publicKey privateKeys controllerName
        controllerNamespace).fs.paths) := by
  rcases hget : (w.getRun (getCmd name namespace_)).err with _ | e
  · rcases hpub : createTemp w.tempDir w.publicKeyRand "public-key-*.pem" fs
      with e1 | ⟨f1, fs1⟩
    · rw [rotateSecret_public_fails w fs name namespace_ publicKey privateKeys controllerName
        controllerNamespace e1 hget hpub]
      simp
    · rcases hpriv : createTemp w.tempDir w.privateKeysRand "private-keys-*.yaml"
        (fs1.writeString f1 publicKey w.publicKeyWrite) with e2 | ⟨f2, fs3⟩
      · rw [rotateSecret_private_fails w fs fs1 name namespace_ publicKey privateKeys
          controllerName controllerNamespace f1 e2 hget hpub hpriv]
        refine ⟨by simp, ?_, by simp⟩
        intro p hp hrm
        simp only [Option.some.injEq] at hp
        subst hp
        rw [hrm]
        exact not_mem_paths_remove _ _
      · rw [rotateSecret_runs w fs fs1 fs3 name namespace_ publicKey privateKeys
          controllerName controllerNamespace f1 f2 hget hpub hpriv]
        refine ⟨by simp, ?_, ?_⟩
        · intro p hp hrm
          simp only [Option.some.injEq] at hp
          subst hp
          rw [hrm]
          exact not_mem_paths_remove _ _
        · intro p hp hrm
          simp only [Option.some.injEq] at hp
          subst hp
          rw [hrm]
          exact not_mem_paths_remove_remove _ _ _ _
  · rw [rotateSecret_get_fails w fs name namespace_ publicKey privateKeys controllerName
      controllerNamespace e hget]
    simp

/-- C6 (amended) at a fully successful call whose removals succeed: both temp
files were created and neither is left. -/
theorem C6_temp_files_removed_witness :
    (rotateSecret rotateOk [] "db" "prod" "CERT" "KEYS" "sealed-secrets"
      "kube-system").publicKeyFile = some "/tmp/public-key-123.pem" ∧
    (rotateSecret rotateOk [] "db" "prod" "CERT" "KEYS" "sealed-secrets"
      "kube-system").privateKeysFile = some "/tmp/private-keys-456.yaml" ∧
    rotateOk.publicKeyRemove = none ∧
    rotateOk.privateKeysRemove = none ∧
    "/tmp/public-key-123.pem" ∉ (rotateSecret rotateOk [] "db" "prod" "CERT" "KEYS"
      "sealed-secrets" "kube-system").fs.paths ∧
    "/tmp/private-keys-456.yaml" ∉ (rotateSecret rotateOk [] "db" "prod" "CERT" "KEYS"
      "sealed-secrets" "kube-system").fs.paths :=
  ⟨by decide, by decide, rfl, rfl,
   (C6_temp_files_removed rotateOk [] "db" "prod" "CERT" "KEYS" "sealed-secrets"
      "kube-system").2.1 _ (by decide) rfl,
   (C6_temp_files_removed rotateOk [] "db" "prod" "CERT" "KEYS" "sealed-secrets"
      "kube-system").2.2 _ (by decide) rfl⟩

/-- C5. The code at the failing inputs.  When writing the public key fails
(nothing is written, the certificate file stays empty) and every other step
succeeds, `rotateSecret` returns nil; and when the unseal stage exits 1 while
the last stage exits 0, `rotateSecret` returns nil as well.  The specification
asks for a non-nil error in both cases. -/
theorem C5_write_and_stage_failures_not_surfaced :
    (rotateWriteFails.publicKeyWrite = some 0 ∧
     (rotateSecret rotateWriteFails [] "db" "prod" "CERT" "KEYS" "sealed-secrets"
        "kube-system").sealRun.bind (fun p => p.2.read "/tmp/public-key-123.pem") = some [] ∧
     (rotateSecret rotateWriteFails [] "db" "prod" "CERT" "KEYS" "sealed-secrets"
        "kube-system").err = none) ∧
    ((rotateSecret rotateUnsealFails [] "db" "prod" "CERT" "KEYS" "sealed-secrets"
        "kube-system").sealRun.map (fun p => (rotateUnsealFails.shRun p.1 p.2).stages) =
       some [1, 0, 0] ∧
     (rotateSecret rotateUnsealFails [] "db" "prod" "CERT" "KEYS" "sealed-secrets"
        "kube-system").err = none) := by
  decide

/-- C7 as stated fails: a command that exits zero and prints nothing makes
`fetchPublicKey` and `getPrivateKeys` return the empty string with a nil
error. -/
theorem C7_key_fetch_failure_conditions_counterexample :
    (silentRun (fetchPublicKeyCmd "sealed-secrets" "kube-system")).stdout = "" ∧
    fetchPublicKey silentRun "sealed-secrets" "kube-system" = ("", none) ∧
    (silentRun (getPrivateKeysCmd "kube-system")).stdout = "" ∧
    getPrivateKeys silentRun "kube-system" = ("", none) := by
  decide

/-- C7 (amended). Key fetch failure conditions: for every controller name and
namespace, `fetchPublicKey` returns exactly the error that running
`kubeseal --fetch-cert` for that controller returned (so it fails whenever the
command cannot run or exits non-zero), and `getPrivateKeys` exactly the error
of its `kubectl get secret` command; on an error each returns the empty
string, and on success each returns the captured standard output unchanged,
empty or not. -/
theorem C7_key_fetch_failure_conditions (run : Cmd → CmdResult)
    (controllerName controllerNamespace : String) :
    (fetchPublicKey run controllerName controllerNamespace).2 =
      (run (fetchPublicKeyCmd controllerName controllerNamespace)).err ∧
    (fetchPublicKey run controllerName controllerNamespace).1 =
      (if (run (fetchPublicKeyCmd controllerName controllerNamespace)).err.isSome then ""
       else (run (fetchPublicKeyCmd controllerName controllerNamespace)).stdout) ∧
    (getPrivateKeys run controllerNamespace).2 =
      (run (getPrivateKeysCmd controllerNamespace)).err ∧
    (getPrivateKeys run controllerNamespace).1 =
      (if (run (getPrivateKeysCmd controllerNamespace)).err.isSome then ""
       else (run (getPrivateKeysCmd controllerNamespace)).stdout) := by
  rcases h1 : (run (fetchPublicKeyCmd controllerName controllerNamespace)).err with _ | e1 <;>
  rcases h2 : (run (getPrivateKeysCmd controllerNamespace)).err with _ | e2 <;>
  simp [fetchPublicKey, getPrivateKeys, h1, h2]

/-- C8. The code at the failing input.  With two inventoried items named `db`,
one in `prod` and one in `staging`, both failing at apply, everything `main`
prints from the loop on is two identical lines that name `db` and the error
and no namespace, followed by the summary of zero processed items. -/
theorem C8_failure_message_omits_namespace :
    (main exampleCfg sameNameFailEnv).st.out.drop 15 =
      ["❌ Error processing db: exit status 1\n",
       "❌ Error processing db: exit status 1\n",
       "\n----------------------------------------------\n",
       "📌 Rotation Complete\n",
       "----------------------------------------------\n",
       "🔄 Total SealedSecrets processed: 0\n"] := by
  decide

end SealedSecretsRotator
